import Mathlib

/-!
Verification of the PLA (partitioned-leaping algorithm) post-leap step-size
controllers `eRungeKutta_TC_FG_rbPL` (reaction-based) and
`eRungeKutta_TC_FG_sbPL` (species-based) from
`Network3/src/pla/eRungeKutta/extra/`.  The C++ state (doubles, raw arrays,
`vector`) is embedded with `ℝ`, `List ℝ` and `List (List ℝ)`; the external
collaborators (`aCalc`, live populations, the g-value estimator) are
function-valued environment records.  Fatal `exit(1)` paths are embedded as
`Except.error`.
-/

open Finset

/-- The slice of the effective-propensity calculator `aCalc` consumed by
`getNewTau` in both variants: `X_eff.size()` (number of tracked species),
the ragged arrays `spInRxn[j]` / `stoich[j]` (as a length function plus
index/coefficient functions), and `a_eff[]` as recomputed by
`calc_aEff(tau)` (a function of the trial tau and the reaction index). -/
structure ACalc where
  numSp : ℕ
  spInRxnLen : ℕ → ℕ
  spInRxn : ℕ → ℕ → ℕ
  stoich : ℕ → ℕ → ℝ
  aEff : ℝ → ℕ → ℝ

/-- External environment of the reaction-based controller: the live network
(`rxn.size()`, `rxn[v]->rateSpecies.size()`,
`rxn[v]->rateSpecies[j]->population`), the species-index map
`aCalc->rateSp[v][j]`, and the shared propensity calculator. -/
structure RbEnv where
  numRxn : ℕ
  rateSpCount : ℕ → ℕ
  livePop : ℕ → ℕ → ℝ
  rateSp : ℕ → ℕ → ℕ
  aCalc : ACalc

/-- External environment of the species-based controller: `sp.size()`,
`sp[j]->population`, the g-value estimator `gGet->get_g(j)`, and the shared
propensity calculator. -/
structure SbEnv where
  numSp : ℕ
  livePop : ℕ → ℝ
  get_g : ℕ → ℝ
  aCalc : ACalc

/-- State of `eRungeKutta_TC_FG_rbPL`: the configuration parameters
`p, pp, q, w`, the `preCalc` and `substantially` flags, and the parallel
registry arrays `oldPop[][]` / `projPop[][]` (one row per registered
reaction, one entry per rate species of that reaction). -/
structure RbCtrl where
  p : ℝ
  pp : ℝ
  q : ℝ
  w : ℝ
  preCalc : Bool
  substantially : Bool
  oldPop : List (List ℝ)
  projPop : List (List ℝ)

/-- State of `eRungeKutta_TC_FG_sbPL`: configuration plus the parallel
registry arrays `oldPop[]`, `old_g[]`, `projPop[]` (one entry per
registered species). -/
structure SbCtrl where
  p : ℝ
  pp : ℝ
  q : ℝ
  w : ℝ
  preCalc : Bool
  substantially : Bool
  oldPop : List ℝ
  old_g : List ℝ
  projPop : List ℝ

/-- `mean_dX[j]` of `getNewTau` (both variants, identical loops): the inner
loop accumulates `stoich[j][v] * a_eff[spInRxn[j][v]]` over
`v < spInRxn[j].size()` and the result is multiplied by `tau`. -/
def mean_dX (ac : ACalc) (tau : ℝ) (j : ℕ) : ℝ :=
  tau * ∑ v ∈ range (ac.spInRxnLen j), ac.stoich j v * ac.aEff tau (ac.spInRxn j v)

/-- The argument of the square root in `sdev_dX[j]`: the inner loop
accumulates `z_vj * z_vj * a_eff[R_v]` and the result is multiplied by
`tau` before `sqrt` is applied. -/
def sdevVar (ac : ACalc) (tau : ℝ) (j : ℕ) : ℝ :=
  tau * ∑ v ∈ range (ac.spInRxnLen j),
    ac.stoich j v * ac.stoich j v * ac.aEff tau (ac.spInRxn j v)

/-- `sdev_dX[j]` of `getNewTau`: `sqrt(tau * Σ z²a)`, negated when
`mean_dX[j] < 0` so that the deviation points in the direction the mean is
moving. -/
noncomputable def sdev_dX (ac : ACalc) (tau : ℝ) (j : ℕ) : ℝ :=
  if mean_dX ac tau j < 0 then -Real.sqrt (sdevVar ac tau j)
  else Real.sqrt (sdevVar ac tau j)

/-- `projPop[v][j]` as assigned in the reaction-based `getNewTau`:
`oldPop[v][j] + mean_dX[S_j] + sdev_dX[S_j]` with `S_j = rateSp[v][j]`. -/
noncomputable def projPopEntryRb (env : RbEnv) (oldPop : List (List ℝ))
    (tau : ℝ) (v j : ℕ) : ℝ :=
  (oldPop.getD v []).getD j 0 + mean_dX env.aCalc tau (env.rateSp v j)
    + sdev_dX env.aCalc tau (env.rateSp v j)

/-- `projPop[j]` as assigned in the species-based `getNewTau`:
`oldPop[j] + mean_dX[j] + sdev_dX[j]`. -/
noncomputable def projPopEntrySb (env : SbEnv) (oldPop : List ℝ)
    (tau : ℝ) (j : ℕ) : ℝ :=
  oldPop.getD j 0 + mean_dX env.aCalc tau j + sdev_dX env.aCalc tau j

/-- Modelled from the spec: `RBChecker::check` (class `RBChecker` is not
under src/; only its call sites are).  Per the spec, the reaction-bound
check compares, for each reaction `v` and each of its rate species `j`, the
projected value against the baseline and accepts only if every change,
scaled by `threshold_scale`, stays within `eps` relative to the baseline
(section 8.6: baseline 100, eps 0.1 gives the bound 110, so a projection of
113.16 is rejected). -/
def rbCheck (env : RbEnv) (eps threshold : ℝ) (oldPop : List (List ℝ))
    (tau : ℝ) : Prop :=
  ∀ v < env.numRxn, ∀ j < env.rateSpCount v,
    |projPopEntryRb env oldPop tau v j - (oldPop.getD v []).getD j 0|
      ≤ threshold * eps * (oldPop.getD v []).getD j 0

/-- The constructor parameter validation shared verbatim by all
constructors of both variants: `pp < p`, `q < 1.0`, and
`w <= 0.0 || w >= 1.0` each print a diagnostic and `exit(1)`; `eps` and `p`
themselves are only forwarded, never checked. -/
noncomputable def ctorValidate (eps p pp q w : ℝ) : Except String Unit :=
  if pp < p then Except.error "pp must be at least p"
  else if q < 1 then Except.error "q must be at least 1.0"
  else if w ≤ 0 ∨ 1 ≤ w then Except.error "w must be between 0.0 and 1.0"
  else Except.ok (eps, ()).2

/-- The tau-selection prologue of the reaction-based `getNewTau` (lines
103-114): on the first call (`preCalc`) take the external estimate `tau0`
from `ptc.getNewTau` and clear `preCalc`; afterwards multiply the incoming
tau by `q` when the previous step was substantially accepted and by `pp`
otherwise. -/
def tauSelectRb (s : RbCtrl) (tau tau0 : ℝ) : ℝ × RbCtrl :=
  if s.preCalc then (tau0, { s with preCalc := false })
  else if s.substantially then (tau * s.q, s)
  else (tau * s.pp, s)

/-- The tau-selection prologue of the species-based `getNewTau` (lines
99-110), textually identical to the reaction-based one. -/
def tauSelectSb (s : SbCtrl) (tau tau0 : ℝ) : ℝ × SbCtrl :=
  if s.preCalc then (tau0, { s with preCalc := false })
  else if s.substantially then (tau * s.q, s)
  else (tau * s.pp, s)

/-- The body of the reaction-based `check()` (lines 170-181), with the
post-leap bound check abstracted as `chk : threshold_scale -> result`
(standing for `ch->check(scale, a_eff, oldPop, true)`): store the
`w`-threshold result in `substantially`; if it passed return `true`
immediately, otherwise return the `1.0`-threshold result. -/
def checkRb (chk : ℝ → Bool) (s : RbCtrl) : Bool × RbCtrl :=
  let s' := { s with substantially := chk s.w }
  if s'.substantially then (true, s') else (chk 1, s')

/-- The body of the species-based `check()` (lines 165-176), identical
control flow; `chk scale` stands for
`ch->check(scale, X_eff, oldPop, old_g, true)`. -/
def checkSb (chk : ℝ → Bool) (s : SbCtrl) : Bool × SbCtrl :=
  let s' := { s with substantially := chk s.w }
  if s'.substantially then (true, s') else (chk 1, s')

/-- The successful branch of `addRxn()`: push one row onto `oldPop`
initialised from the live populations of reaction `u = oldPop.size()`, and
one zero row onto `projPop`. -/
def addRxnStep (env : RbEnv) (s : RbCtrl) : RbCtrl :=
  let u := s.oldPop.length
  { s with
    oldPop := s.oldPop ++ [(List.range (env.rateSpCount u)).map (env.livePop u)],
    projPop := s.projPop ++ [(List.range (env.rateSpCount u)).map fun _ => (0 : ℝ)] }

/-- `eRungeKutta_TC_FG_rbPL::addRxn()`: grow both registry rows by one when
`oldPop.size() < rxn.size()`, `projPop.size() < rxn.size()` and
`oldPop.size() == projPop.size()`; otherwise print a diagnostic and
`exit(1)` (embedded as an error). -/
def addRxn (env : RbEnv) (s : RbCtrl) : Except String RbCtrl :=
  if s.oldPop.length < env.numRxn ∧ s.projPop.length < env.numRxn ∧
      s.oldPop.length = s.projPop.length then
    Except.ok (addRxnStep env s)
  else Except.error "addRxn: no rxns to add"

/-- The registry catch-up loop at the top of the reaction-based
`getNewTau` and `check`:
`while (oldPop.size() != rxn.size() && projPop.size() != rxn.size()) addRxn();`
with `addRxn`'s fatal branch embedded as an error. -/
def catchUpRb (env : RbEnv) (s : RbCtrl) : Except String RbCtrl :=
  if s.oldPop.length ≠ env.numRxn ∧ s.projPop.length ≠ env.numRxn then
    if _h : s.oldPop.length < env.numRxn ∧ s.projPop.length < env.numRxn ∧
        s.oldPop.length = s.projPop.length then
      catchUpRb env (addRxnStep env s)
    else Except.error "addRxn: no rxns to add"
  else Except.ok s
termination_by env.numRxn - s.oldPop.length
decreasing_by
  simp only [addRxnStep, List.length_append, List.length_cons, List.length_nil]
  omega

/-- `eRungeKutta_TC_FG_rbPL::update()`: overwrite every `oldPop[v][j]` with
the live population `rxn[v]->rateSpecies[j]->population`, then `exit(1)`
(error) if `oldPop.size()` or `projPop.size()` differs from `rxn.size()`. -/
def updateRb (env : RbEnv) (s : RbCtrl) : Except String RbCtrl :=
  let s' := { s with
    oldPop := (List.range s.oldPop.length).map fun v =>
      (List.range (env.rateSpCount v)).map (env.livePop v) }
  if s.oldPop.length ≠ env.numRxn then
    Except.error "update: sizes of oldPop and rxn vectors not equal"
  else if s.projPop.length ≠ env.numRxn then
    Except.error "update: sizes of projPop and rxn vectors not equal"
  else Except.ok s'

/-- The successful branch of `addSpecies()`: push the live population of
species `i = oldPop.size()`, its current g-value, and a zero projection. -/
def addSpeciesStep (env : SbEnv) (s : SbCtrl) : SbCtrl :=
  let i := s.oldPop.length
  { s with
    oldPop := s.oldPop ++ [env.livePop i],
    old_g := s.old_g ++ [env.get_g i],
    projPop := s.projPop ++ [(0 : ℝ)] }

/-- `eRungeKutta_TC_FG_sbPL::addSpecies()`: grow all three registry arrays
by one when `oldPop.size() < sp.size()`, `oldPop.size() == old_g.size()`
and `oldPop.size() == projPop.size()`; otherwise fatal error. -/
def addSpecies (env : SbEnv) (s : SbCtrl) : Except String SbCtrl :=
  if s.oldPop.length < env.numSp ∧ s.oldPop.length = s.old_g.length ∧
      s.oldPop.length = s.projPop.length then
    Except.ok (addSpeciesStep env s)
  else Except.error "addSpecies: no species to add"

/-- The registry catch-up loop at the top of the species-based `getNewTau`
and `check`: loop while `oldPop.size()`, `old_g.size()` and
`projPop.size()` all differ from `sp.size()`. -/
def catchUpSb (env : SbEnv) (s : SbCtrl) : Except String SbCtrl :=
  if s.oldPop.length ≠ env.numSp ∧ s.old_g.length ≠ env.numSp ∧
      s.projPop.length ≠ env.numSp then
    if _h : s.oldPop.length < env.numSp ∧ s.oldPop.length = s.old_g.length ∧
        s.oldPop.length = s.projPop.length then
      catchUpSb env (addSpeciesStep env s)
    else Except.error "addSpecies: no species to add"
  else Except.ok s
termination_by env.numSp - s.oldPop.length
decreasing_by
  simp only [addSpeciesStep, List.length_append, List.length_cons, List.length_nil]
  omega

/-- `eRungeKutta_TC_FG_sbPL::update()`: overwrite `oldPop[j]` with
`sp[j]->population` and `old_g[j]` with `gGet->get_g(j)` for every
registered species, then fatal error if any of the three array sizes
differs from `sp.size()`. -/
def updateSb (env : SbEnv) (s : SbCtrl) : Except String SbCtrl :=
  let s' := { s with
    oldPop := (List.range s.oldPop.length).map env.livePop,
    old_g := (List.range s.oldPop.length).map env.get_g }
  if s.oldPop.length ≠ env.numSp then
    Except.error "update: sizes of oldPop and sp vectors not equal"
  else if s.old_g.length ≠ env.numSp then
    Except.error "update: sizes of old_g and sp vectors not equal"
  else if s.projPop.length ≠ env.numSp then
    Except.error "update: sizes of projPop and sp vectors not equal"
  else Except.ok s'

/-- The reaction-based copy constructor (lines 73-84): configuration fields
are copied, `preCalc` is re-initialised to `true`, and the registry is
rebuilt from scratch by running `addRxn()` once per live reaction (the
`substantially` flag is not in the initialiser list, so its value `b` is
unspecified). -/
def copyCtorRb (env : RbEnv) (s : RbCtrl) (b : Bool) : RbCtrl :=
  { p := s.p, pp := s.pp, q := s.q, w := s.w, preCalc := true,
    substantially := b,
    oldPop := (List.range env.numRxn).map fun v =>
      (List.range (env.rateSpCount v)).map (env.livePop v),
    projPop := (List.range env.numRxn).map fun v =>
      (List.range (env.rateSpCount v)).map fun _ => (0 : ℝ) }

/-- The species-based copy constructor (lines 70-82): configuration copied,
`preCalc := true`, registry rebuilt by running `addSpecies()` once per live
species. -/
def copyCtorSb (env : SbEnv) (s : SbCtrl) (b : Bool) : SbCtrl :=
  { p := s.p, pp := s.pp, q := s.q, w := s.w, preCalc := true,
    substantially := b,
    oldPop := (List.range env.numSp).map env.livePop,
    old_g := (List.range env.numSp).map env.get_g,
    projPop := (List.range env.numSp).map fun _ => (0 : ℝ) }

/-- The end-to-end scenario of spec section 8.6: one reaction with one rate
species, stoichiometry +1, constant effective propensity 10, live baseline
population 100. -/
def scenarioEnv : RbEnv :=
  { numRxn := 1
    rateSpCount := fun _ => 1
    livePop := fun _ _ => 100
    rateSp := fun _ _ => 0
    aCalc :=
      { numSp := 1
        spInRxnLen := fun _ => 1
        spInRxn := fun _ _ => 0
        stoich := fun _ _ => 1
        aEff := fun _ _ => 10 } }

/-- The baseline registry of the scenario: a single reaction row holding
the single rate species population 100. -/
def scenarioOldPop : List (List ℝ) := [[100]]

/-- A variant of the scenario with stoichiometry -1 (a consumed species),
used to exercise the negative-mean branch of the deviation sign rule. -/
def scenarioEnvNeg : RbEnv :=
  { scenarioEnv with
    aCalc := { scenarioEnv.aCalc with stoich := fun _ _ => -1 } }

/-- A species-based environment matching the scenario: one species with
population 100 and g-value 1. -/
def sbEnv0 : SbEnv :=
  { numSp := 1, livePop := fun _ => 100, get_g := fun _ => 1,
    aCalc := scenarioEnv.aCalc }

/-- A freshly constructed reaction-based controller state for the scenario
parameters `p = 0.5`, `pp = 0.9`, `q = 1.5`, `w = 0.01`, with its registry
synchronised to the one live reaction. -/
noncomputable def rbCtrl0 : RbCtrl :=
  { p := 1/2, pp := 9/10, q := 3/2, w := 1/100, preCalc := true,
    substantially := false, oldPop := [[100]], projPop := [[0]] }

/-- The scenario controller after a substantially accepted step. -/
noncomputable def rbCtrl1 : RbCtrl := { rbCtrl0 with preCalc := false, substantially := true }

/-- The scenario controller after a barely accepted step. -/
noncomputable def rbCtrl2 : RbCtrl := { rbCtrl0 with preCalc := false, substantially := false }

/-- A reaction-based controller state whose parallel registry arrays have
been corrupted to different lengths. -/
noncomputable def rbCtrlBad : RbCtrl := { rbCtrl0 with projPop := [] }

/-- A freshly constructed species-based controller state synchronised to
the one live species of `sbEnv0`. -/
noncomputable def sbCtrl0 : SbCtrl :=
  { p := 1/2, pp := 9/10, q := 3/2, w := 1/100, preCalc := true,
    substantially := false, oldPop := [100], old_g := [1], projPop := [0] }

/-- The species-based controller after a substantially accepted step. -/
noncomputable def sbCtrl1 : SbCtrl := { sbCtrl0 with preCalc := false, substantially := true }

/-- The species-based controller after a barely accepted step. -/
noncomputable def sbCtrl2 : SbCtrl := { sbCtrl0 with preCalc := false, substantially := false }

/-- A species-based controller state whose parallel registry arrays have
been corrupted to different lengths. -/
noncomputable def sbCtrlBad : SbCtrl := { sbCtrl0 with old_g := [] }

/-- The scenario environment with the live reaction count raised to 2, so
that the registries of `rbCtrl0` / `sbCtrl0` are out of sync. -/
def rbEnv2 : RbEnv := { scenarioEnv with numRxn := 2 }

/-- The species environment with the live species count raised to 2. -/
def sbEnv2 : SbEnv := { sbEnv0 with numSp := 2 }

/-- Reading index `v < n` of `(List.range n).map f` with a default yields
`f v`. -/
theorem getD_range_map {α : Type} (f : ℕ → α) (n v : ℕ) (d : α) (h : v < n) :
    ((List.range n).map f).getD v d = f v := by
  simp [List.getD_eq_getElem?_getD, List.getElem?_map, List.getElem?_range h]

/-- Claim C2 counterexample: construction succeeds although `eps = -1 ≤ 0`
(first tuple) and although `p = 2` lies outside `(0,1)` (second tuple), so
the constructors do not validate `eps > 0` or `p ∈ (0,1)`. -/
theorem ctor_validation_counterexample :
    ctorValidate (-1) (1/2) (3/5) (3/2) (1/2) = Except.ok () ∧
    ctorValidate 1 2 2 1 (1/2) = Except.ok () := by
  constructor <;> · unfold ctorValidate; norm_num

/-- Claim C2 (amended): construction of either controller variant fails
fast exactly when `pp < p`, `q < 1.0`, or `w` lies outside the open
interval `(0,1)`; it succeeds for every other tuple, in particular `eps`,
`p` themselves and the upper bound `pp ≤ 1` are never validated. -/
theorem ctor_validation_amended (eps p pp q w : ℝ) :
    ctorValidate eps p pp q w = Except.ok () ↔
      (p ≤ pp ∧ 1 ≤ q ∧ 0 < w ∧ w < 1) := by
  unfold ctorValidate
  split_ifs with h1 h2 h3
  · simp only [reduceCtorEq, false_iff]
    intro h
    exact absurd h1 (not_lt.2 h.1)
  · simp only [reduceCtorEq, false_iff]
    intro h
    exact absurd h2 (not_lt.2 h.2.1)
  · simp only [reduceCtorEq, false_iff]
    intro h
    rcases h3 with h3 | h3
    · exact absurd h3 (not_le.2 h.2.2.1)
    · exact absurd h3 (not_le.2 h.2.2.2)
  · push_neg at h1 h2 h3
    simp only [true_iff]
    exact ⟨h1, h2, h3.1, h3.2⟩

/-- Claim C2 witness: a fully valid tuple is accepted and every individual
violation of the three checked conditions is rejected. -/
theorem ctor_validation_amended_witness :
    (ctorValidate (1/10) (1/2) (9/10) (3/2) (1/100) = Except.ok () ↔
      ((1:ℝ)/2 ≤ 9/10 ∧ (1:ℝ) ≤ 3/2 ∧ (0:ℝ) < 1/100 ∧ (1:ℝ)/100 < 1)) ∧
    (ctorValidate (1/10) (1/2) (1/4) (3/2) (1/100) = Except.ok () ↔
      ((1:ℝ)/2 ≤ 1/4 ∧ (1:ℝ) ≤ 3/2 ∧ (0:ℝ) < 1/100 ∧ (1:ℝ)/100 < 1)) :=
  ⟨ctor_validation_amended (1/10) (1/2) (9/10) (3/2) (1/100),
   ctor_validation_amended (1/10) (1/2) (1/4) (3/2) (1/100)⟩

/-- Claim C3: in both variants, the first `getNewTau` call takes the
initial tau from the external pre-leap estimator (and clears `preCalc`);
every later call multiplies the incoming tau by `q` after a substantially
accepted step and by `pp` after a barely accepted one, leaving the rest of
the state untouched. -/
theorem tau_selection_hysteresis :
    (∀ (s : RbCtrl) (tau tau0 : ℝ), s.preCalc = true →
      tauSelectRb s tau tau0 = (tau0, { s with preCalc := false })) ∧
    (∀ (s : RbCtrl) (tau tau0 : ℝ), s.preCalc = false → s.substantially = true →
      tauSelectRb s tau tau0 = (tau * s.q, s)) ∧
    (∀ (s : RbCtrl) (tau tau0 : ℝ), s.preCalc = false → s.substantially = false →
      tauSelectRb s tau tau0 = (tau * s.pp, s)) ∧
    (∀ (s : SbCtrl) (tau tau0 : ℝ), s.preCalc = true →
      tauSelectSb s tau tau0 = (tau0, { s with preCalc := false })) ∧
    (∀ (s : SbCtrl) (tau tau0 : ℝ), s.preCalc = false → s.substantially = true →
      tauSelectSb s tau tau0 = (tau * s.q, s)) ∧
    (∀ (s : SbCtrl) (tau tau0 : ℝ), s.preCalc = false → s.substantially = false →
      tauSelectSb s tau tau0 = (tau * s.pp, s)) := by
  refine ⟨?_, ?_, ?_, ?_, ?_, ?_⟩
  · intro s tau tau0 h
    simp [tauSelectRb, h]
  · intro s tau tau0 h h2
    simp [tauSelectRb, h, h2]
  · intro s tau tau0 h h2
    simp [tauSelectRb, h, h2]
  · intro s tau tau0 h
    simp [tauSelectSb, h]
  · intro s tau tau0 h h2
    simp [tauSelectSb, h, h2]
  · intro s tau tau0 h h2
    simp [tauSelectSb, h, h2]

/-- Claim C3 witness: the three branches evaluated on the concrete
scenario controller states. -/
theorem tau_selection_hysteresis_witness :
    tauSelectRb rbCtrl0 2 5 = (5, { rbCtrl0 with preCalc := false }) ∧
    tauSelectRb rbCtrl1 2 5 = (2 * rbCtrl1.q, rbCtrl1) ∧
    tauSelectRb rbCtrl2 2 5 = (2 * rbCtrl2.pp, rbCtrl2) ∧
    tauSelectSb sbCtrl1 2 5 = (2 * sbCtrl1.q, sbCtrl1) :=
  ⟨tau_selection_hysteresis.1 rbCtrl0 2 5 rfl,
   tau_selection_hysteresis.2.1 rbCtrl1 2 5 rfl rfl,
   tau_selection_hysteresis.2.2.1 rbCtrl2 2 5 rfl rfl,
   tau_selection_hysteresis.2.2.2.2.1 sbCtrl1 2 5 rfl rfl⟩

/-- Claim C4: in both variants, `check()` stores the result of the bound
check at threshold `w` in `substantially`, returns `true` exactly when the
`w`-check or the `1.0`-check passes, and when the `w`-check passes the
result does not depend on the checker's value at threshold `1.0`. -/
theorem postleap_classification :
    (∀ (chk : ℝ → Bool) (s : RbCtrl),
      (checkRb chk s).2.substantially = chk s.w ∧
      (checkRb chk s).1 = (chk s.w || chk 1) ∧
      (checkRb chk s).2 = { s with substantially := chk s.w }) ∧
    (∀ (chk chk' : ℝ → Bool) (s : RbCtrl), chk s.w = chk' s.w →
      chk s.w = true → checkRb chk s = checkRb chk' s) ∧
    (∀ (chk : ℝ → Bool) (s : SbCtrl),
      (checkSb chk s).2.substantially = chk s.w ∧
      (checkSb chk s).1 = (chk s.w || chk 1) ∧
      (checkSb chk s).2 = { s with substantially := chk s.w }) ∧
    (∀ (chk chk' : ℝ → Bool) (s : SbCtrl), chk s.w = chk' s.w →
      chk s.w = true → checkSb chk s = checkSb chk' s) := by
  refine ⟨?_, ?_, ?_, ?_⟩
  · intro chk s
    unfold checkRb
    rcases h : chk s.w <;> simp [h]
  · intro chk chk' s heq h
    unfold checkRb
    simp [h, ← heq]
  · intro chk s
    unfold checkSb
    rcases h : chk s.w <;> simp [h]
  · intro chk chk' s heq h
    unfold checkSb
    simp [h, ← heq]

/-- Claim C4 witness: classification evaluated on the scenario controller
with concrete checkers (substantial pass; barely accepted; rejected), and
independence from the loose bound when the strict one passes. -/
theorem postleap_classification_witness :
    ((checkRb (fun _ => true) rbCtrl2).2.substantially = true ∧
      (checkRb (fun _ => true) rbCtrl2).1 = (true || true) ∧
      (checkRb (fun _ => true) rbCtrl2).2
        = { rbCtrl2 with substantially := true }) ∧
    checkRb (fun _ => true) rbCtrl2 = checkRb (fun t => decide (t < 1)) rbCtrl2 ∧
    ((checkSb (fun _ => false) sbCtrl1).2.substantially = false ∧
      (checkSb (fun _ => false) sbCtrl1).1 = (false || false) ∧
      (checkSb (fun _ => false) sbCtrl1).2
        = { sbCtrl1 with substantially := false }) :=
  ⟨postleap_classification.1 (fun _ => true) rbCtrl2,
   postleap_classification.2.1 (fun _ => true) (fun t => decide (t < 1)) rbCtrl2
     (by norm_num [rbCtrl2, rbCtrl0]) rfl,
   postleap_classification.2.2.1 (fun _ => false) sbCtrl1⟩

/-- Claim C10: copy-constructing either controller resets `preCalc` to
`true` regardless of the source state (and of the indeterminate value the
copy gets for `substantially`), so the first `getNewTau` call on the copy
takes its tau from the external pre-leap estimator. -/
theorem copy_ctor_resets_precalc (envR : RbEnv) (envS : SbEnv) (s : RbCtrl)
    (t : SbCtrl) (b b' : Bool) (tau tau0 : ℝ) :
    (copyCtorRb envR s b).preCalc = true ∧
    tauSelectRb (copyCtorRb envR s b) tau tau0
      = (tau0, { copyCtorRb envR s b with preCalc := false }) ∧
    (copyCtorSb envS t b').preCalc = true ∧
    tauSelectSb (copyCtorSb envS t b') tau tau0
      = (tau0, { copyCtorSb envS t b' with preCalc := false }) := by
  refine ⟨rfl, ?_, rfl, ?_⟩ <;> simp [tauSelectRb, tauSelectSb, copyCtorRb, copyCtorSb]

/-- Claim C6: for positive tau and nonnegative effective propensities, the
signed standard deviation computed in the pre-leap projection is strictly
negative whenever the mean change is negative, and nonnegative whenever
the mean is nonnegative (both variants compute these with the same
loops). -/
theorem sdev_sign_matches_mean (ac : ACalc) (tau : ℝ) (j : ℕ)
    (htau : 0 < tau) (ha : ∀ r, 0 ≤ ac.aEff tau r) :
    (mean_dX ac tau j < 0 → sdev_dX ac tau j < 0) ∧
    (0 ≤ mean_dX ac tau j → 0 ≤ sdev_dX ac tau j) := by
  constructor
  · intro hm
    have hS : ∑ v ∈ range (ac.spInRxnLen j),
        ac.stoich j v * ac.aEff tau (ac.spInRxn j v) < 0 := by
      by_contra hc
      push_neg at hc
      exact absurd hm (not_lt.2 (mul_nonneg htau.le hc))
    obtain ⟨v, hv, hneg⟩ :
        ∃ v ∈ range (ac.spInRxnLen j),
          ac.stoich j v * ac.aEff tau (ac.spInRxn j v) < 0 := by
      by_contra hc
      push_neg at hc
      exact absurd (Finset.sum_nonneg hc) (not_le.2 hS)
    have hapos : 0 < ac.aEff tau (ac.spInRxn j v) := by
      rcases lt_or_eq_of_le (ha (ac.spInRxn j v)) with h | h
      · exact h
      · rw [← h, mul_zero] at hneg
        exact absurd hneg (lt_irrefl 0)
    have hzne : ac.stoich j v ≠ 0 := by
      intro h
      rw [h, zero_mul] at hneg
      exact absurd hneg (lt_irrefl 0)
    have hterm : 0 < ac.stoich j v * ac.stoich j v * ac.aEff tau (ac.spInRxn j v) :=
      mul_pos (mul_self_pos.2 hzne) hapos
    have hQ : 0 < ∑ v ∈ range (ac.spInRxnLen j),
        ac.stoich j v * ac.stoich j v * ac.aEff tau (ac.spInRxn j v) :=
      Finset.sum_pos'
        (fun i _ => mul_nonneg (mul_self_nonneg _) (ha _)) ⟨v, hv, hterm⟩
    have hvar : 0 < sdevVar ac tau j := mul_pos htau hQ
    rw [sdev_dX, if_pos hm]
    exact neg_neg_of_pos (Real.sqrt_pos.2 hvar)
  · intro hm
    rw [sdev_dX, if_neg (not_lt.2 hm)]
    exact Real.sqrt_nonneg _

/-- Claim C6 witness: in the consuming-species scenario (stoichiometry -1,
propensity 10) at tau = 1 the hypotheses hold concretely and the sign rule
applies. -/
theorem sdev_sign_matches_mean_witness :
    (0:ℝ) < 1 ∧ (∀ r, 0 ≤ scenarioEnvNeg.aCalc.aEff 1 r) ∧
    ((mean_dX scenarioEnvNeg.aCalc 1 0 < 0 → sdev_dX scenarioEnvNeg.aCalc 1 0 < 0) ∧
      (0 ≤ mean_dX scenarioEnvNeg.aCalc 1 0 → 0 ≤ sdev_dX scenarioEnvNeg.aCalc 1 0)) :=
  ⟨one_pos, fun r => by norm_num [scenarioEnvNeg, scenarioEnv],
   sdev_sign_matches_mean scenarioEnvNeg.aCalc 1 0 one_pos
     (fun r => by norm_num [scenarioEnvNeg, scenarioEnv])⟩

/-- When the reaction-based catch-up loop returns normally, its guard has
become false (one of the registry arrays matches the live reaction count),
and mutual equality of the parallel arrays is preserved. -/
theorem catchUpRb_ok_inv (env : RbEnv) :
    ∀ (n : ℕ) (s s' : RbCtrl), env.numRxn - s.oldPop.length = n →
      catchUpRb env s = Except.ok s' →
      (s'.oldPop.length = env.numRxn ∨ s'.projPop.length = env.numRxn) ∧
      (s.oldPop.length = s.projPop.length →
        s'.oldPop.length = s'.projPop.length) := by
  intro n
  induction n using Nat.strong_induction_on with
  | _ n ih =>
    intro s s' hn h
    rw [catchUpRb] at h
    split at h
    · rename_i hg
      split at h
      · rename_i hc
        have hrec := ih (env.numRxn - (addRxnStep env s).oldPop.length)
          (by simp only [addRxnStep, List.length_append, List.length_cons,
                List.length_nil]; omega)
          (addRxnStep env s) s' rfl h
        refine ⟨hrec.1, fun _ => hrec.2 ?_⟩
        simp only [addRxnStep, List.length_append, List.length_cons,
          List.length_nil]
        omega
      · simp at h
    · rename_i hg
      rw [not_and_or, not_ne_iff, not_ne_iff] at hg
      cases h
      exact ⟨hg, fun he => he⟩

/-- When the catch-up guard is already false, the reaction-based catch-up
loop is a no-op. -/
theorem catchUpRb_of_stop (env : RbEnv) (s : RbCtrl)
    (h : s.oldPop.length = env.numRxn ∨ s.projPop.length = env.numRxn) :
    catchUpRb env s = Except.ok s := by
  rw [catchUpRb, if_neg]
  rw [not_and_or, not_ne_iff, not_ne_iff]
  exact h

/-- When the species-based catch-up loop returns normally, its guard has
become false, and mutual equality of the three parallel arrays is
preserved. -/
theorem catchUpSb_ok_inv (env : SbEnv) :
    ∀ (n : ℕ) (s s' : SbCtrl), env.numSp - s.oldPop.length = n →
      catchUpSb env s = Except.ok s' →
      (s'.oldPop.length = env.numSp ∨ s'.old_g.length = env.numSp ∨
        s'.projPop.length = env.numSp) ∧
      (s.oldPop.length = s.old_g.length ∧ s.oldPop.length = s.projPop.length →
        s'.oldPop.length = s'.old_g.length ∧
          s'.oldPop.length = s'.projPop.length) := by
  intro n
  induction n using Nat.strong_induction_on with
  | _ n ih =>
    intro s s' hn h
    rw [catchUpSb] at h
    split at h
    · rename_i hg
      split at h
      · rename_i hc
        have hrec := ih (env.numSp - (addSpeciesStep env s).oldPop.length)
          (by simp only [addSpeciesStep, List.length_append, List.length_cons,
                List.length_nil]; omega)
          (addSpeciesStep env s) s' rfl h
        refine ⟨hrec.1, fun _ => hrec.2 ?_⟩
        simp only [addSpeciesStep, List.length_append, List.length_cons,
          List.length_nil]
        omega
      · simp at h
    · rename_i hg
      rw [not_and_or, not_and_or, not_ne_iff, not_ne_iff, not_ne_iff] at hg
      cases h
      exact ⟨by tauto, fun he => he⟩

/-- When the catch-up guard is already false, the species-based catch-up
loop is a no-op. -/
theorem catchUpSb_of_stop (env : SbEnv) (s : SbCtrl)
    (h : s.oldPop.length = env.numSp ∨ s.old_g.length = env.numSp ∨
      s.projPop.length = env.numSp) :
    catchUpSb env s = Except.ok s := by
  rw [catchUpSb, if_neg]
  rw [not_and_or, not_and_or, not_ne_iff, not_ne_iff, not_ne_iff]
  tauto

/-- Claim C5: the parallel registry arrays stay of equal length across
every operation of both variants — a successful `addRxn`/`addSpecies`
presupposes and re-establishes equality, a successful catch-up loop or
`update` preserves it (with `update` additionally pinning all lengths to
the live network count) — and any observed mismatch makes the operation
fail with the fatal diagnostic rather than recover. -/
theorem registry_size_invariant :
    (∀ (env : RbEnv) (s s' : RbCtrl), addRxn env s = Except.ok s' →
      s.oldPop.length = s.projPop.length ∧
        s'.oldPop.length = s'.projPop.length) ∧
    (∀ (env : RbEnv) (s : RbCtrl), s.oldPop.length ≠ s.projPop.length →
      addRxn env s = Except.error "addRxn: no rxns to add") ∧
    (∀ (env : RbEnv) (s s' : RbCtrl), s.oldPop.length = s.projPop.length →
      catchUpRb env s = Except.ok s' →
        s'.oldPop.length = s'.projPop.length) ∧
    (∀ (env : RbEnv) (s : RbCtrl), s.oldPop.length ≠ s.projPop.length →
      s.oldPop.length ≠ env.numRxn → s.projPop.length ≠ env.numRxn →
      catchUpRb env s = Except.error "addRxn: no rxns to add") ∧
    (∀ (env : RbEnv) (s s' : RbCtrl), updateRb env s = Except.ok s' →
      s'.oldPop.length = env.numRxn ∧ s'.projPop.length = env.numRxn) ∧
    (∀ (env : RbEnv) (s : RbCtrl),
      s.oldPop.length ≠ env.numRxn ∨ s.projPop.length ≠ env.numRxn →
      ∃ e, updateRb env s = Except.error e) ∧
    (∀ (env : SbEnv) (s s' : SbCtrl), addSpecies env s = Except.ok s' →
      (s.oldPop.length = s.old_g.length ∧
        s.oldPop.length = s.projPop.length) ∧
      (s'.oldPop.length = s'.old_g.length ∧
        s'.oldPop.length = s'.projPop.length)) ∧
    (∀ (env : SbEnv) (s : SbCtrl),
      s.oldPop.length ≠ s.old_g.length ∨ s.oldPop.length ≠ s.projPop.length →
      addSpecies env s = Except.error "addSpecies: no species to add") ∧
    (∀ (env : SbEnv) (s s' : SbCtrl),
      s.oldPop.length = s.old_g.length → s.oldPop.length = s.projPop.length →
      catchUpSb env s = Except.ok s' →
        s'.oldPop.length = s'.old_g.length ∧
          s'.oldPop.length = s'.projPop.length) ∧
    (∀ (env : SbEnv) (s s' : SbCtrl), updateSb env s = Except.ok s' →
      s'.oldPop.length = env.numSp ∧ s'.old_g.length = env.numSp ∧
        s'.projPop.length = env.numSp) ∧
    (∀ (env : SbEnv) (s : SbCtrl),
      s.oldPop.length ≠ env.numSp ∨ s.old_g.length ≠ env.numSp ∨
        s.projPop.length ≠ env.numSp →
      ∃ e, updateSb env s = Except.error e) := by
  refine ⟨?_, ?_, ?_, ?_, ?_, ?_, ?_, ?_, ?_, ?_, ?_⟩
  · intro env s s' h
    unfold addRxn at h
    split at h
    · rename_i hc
      cases h
      refine ⟨hc.2.2, ?_⟩
      simp only [addRxnStep, List.length_append, List.length_cons, List.length_nil]
      omega
    · simp at h
  · intro env s h
    unfold addRxn
    rw [if_neg]
    intro hc
    exact h hc.2.2
  · intro env s s' he h
    exact (catchUpRb_ok_inv env (env.numRxn - s.oldPop.length) s s' rfl h).2 he
  · intro env s he h1 h2
    rw [catchUpRb, if_pos ⟨h1, h2⟩, dif_neg]
    intro hc
    exact he hc.2.2
  · intro env s s' h
    unfold updateRb at h
    split at h
    · simp at h
    · split at h
      · simp at h
      · rename_i h1 h2
        rw [not_ne_iff] at h1 h2
        cases h
        simp only [List.length_map, List.length_range]
        exact ⟨h1, h2⟩
  · intro env s h
    unfold updateRb
    split
    · exact ⟨_, rfl⟩
    · split
      · exact ⟨_, rfl⟩
      · rename_i h1 h2
        rw [not_ne_iff] at h1 h2
        rcases h with h | h
        exacts [absurd h1 h, absurd h2 h]
  · intro env s s' h
    unfold addSpecies at h
    split at h
    · rename_i hc
      cases h
      refine ⟨⟨hc.2.1, hc.2.2⟩, ?_⟩
      simp only [addSpeciesStep, List.length_append, List.length_cons,
        List.length_nil]
      omega
    · simp at h
  · intro env s h
    unfold addSpecies
    rw [if_neg]
    intro hc
    rcases h with h | h
    · exact h hc.2.1
    · exact h hc.2.2
  · intro env s s' he1 he2 h
    exact (catchUpSb_ok_inv env (env.numSp - s.oldPop.length) s s' rfl h).2
      ⟨he1, he2⟩
  · intro env s s' h
    unfold updateSb at h
    split at h
    · simp at h
    · split at h
      · simp at h
      · split at h
        · simp at h
        · rename_i h1 h2 h3
          rw [not_ne_iff] at h1 h2 h3
          cases h
          simp only [List.length_map, List.length_range]
          exact ⟨h1, h1, h3⟩
  · intro env s h
    unfold updateSb
    split
    · exact ⟨_, rfl⟩
    · split
      · exact ⟨_, rfl⟩
      · split
        · exact ⟨_, rfl⟩
        · rename_i h1 h2 h3
          rw [not_ne_iff] at h1 h2 h3
          rcases h with h | h | h
          exacts [absurd h1 h, absurd h2 h, absurd h3 h]

/-- Claim C5 witness: concrete instances — a corrupted registry makes
`addRxn`/`addSpecies` fail with the fatal diagnostic, and the synchronised
scenario registry keeps equal lengths through catch-up and update. -/
theorem registry_size_invariant_witness :
    addRxn rbEnv2 rbCtrlBad = Except.error "addRxn: no rxns to add" ∧
    rbCtrl0.oldPop.length = rbCtrl0.projPop.length ∧
    addSpecies sbEnv2 sbCtrlBad = Except.error "addSpecies: no species to add" ∧
    ({ rbCtrl0 with oldPop := [[(100:ℝ)]] } : RbCtrl).oldPop.length
      = scenarioEnv.numRxn :=
  ⟨registry_size_invariant.2.1 rbEnv2 rbCtrlBad (by simp [rbCtrlBad, rbCtrl0]),
   registry_size_invariant.2.2.1 scenarioEnv rbCtrl0 rbCtrl0 (by simp [rbCtrl0])
     (catchUpRb_of_stop scenarioEnv rbCtrl0 (Or.inl (by simp [rbCtrl0, scenarioEnv]))),
   registry_size_invariant.2.2.2.2.2.2.2.1 sbEnv2 sbCtrlBad
     (Or.inl (by simp [sbCtrlBad, sbCtrl0])),
   (registry_size_invariant.2.2.2.2.1 scenarioEnv rbCtrl0
     { rbCtrl0 with oldPop := [[(100:ℝ)]] } (by rfl)).1⟩

/-- Claim C7: when `update()` returns normally in either variant, every
baseline entry equals the corresponding current live value (population per
rate species, respectively population and g-value per species), and no
other controller state changes: `projPop`, the parameters `p, pp, q, w`,
`preCalc` and `substantially` are untouched. -/
theorem update_commits_baseline :
    (∀ (env : RbEnv) (s s' : RbCtrl), updateRb env s = Except.ok s' →
      (∀ v < env.numRxn, ∀ j < env.rateSpCount v,
        (s'.oldPop.getD v []).getD j 0 = env.livePop v j) ∧
      s'.projPop = s.projPop ∧ s'.p = s.p ∧ s'.pp = s.pp ∧ s'.q = s.q ∧
      s'.w = s.w ∧ s'.preCalc = s.preCalc ∧
      s'.substantially = s.substantially) ∧
    (∀ (env : SbEnv) (s s' : SbCtrl), updateSb env s = Except.ok s' →
      (∀ j < env.numSp,
        s'.oldPop.getD j 0 = env.livePop j ∧ s'.old_g.getD j 0 = env.get_g j) ∧
      s'.projPop = s.projPop ∧ s'.p = s.p ∧ s'.pp = s.pp ∧ s'.q = s.q ∧
      s'.w = s.w ∧ s'.preCalc = s.preCalc ∧
      s'.substantially = s.substantially) := by
  constructor
  · intro env s s' h
    unfold updateRb at h
    split at h
    · simp at h
    · split at h
      · simp at h
      · rename_i h1 h2
        rw [not_ne_iff] at h1 h2
        cases h
        refine ⟨?_, rfl, rfl, rfl, rfl, rfl, rfl, rfl⟩
        intro v hv j hj
        rw [← h1] at hv
        rw [getD_range_map _ _ _ _ hv, getD_range_map _ _ _ _ hj]
  · intro env s s' h
    unfold updateSb at h
    split at h
    · simp at h
    · split at h
      · simp at h
      · split at h
        · simp at h
        · rename_i h1 h2 h3
          rw [not_ne_iff] at h1 h2 h3
          cases h
          refine ⟨?_, rfl, rfl, rfl, rfl, rfl, rfl, rfl⟩
          intro j hj
          rw [← h1] at hj
          rw [getD_range_map _ _ _ _ hj, getD_range_map _ _ _ _ hj]
          exact ⟨rfl, rfl⟩

/-- Claim C7 witness: updating the synchronised scenario controllers
commits the live values 100 (population) and 1 (g-value) and leaves all
other fields intact. -/
theorem update_commits_baseline_witness :
    ((∀ v < scenarioEnv.numRxn, ∀ j < scenarioEnv.rateSpCount v,
        (rbCtrl2.oldPop.getD v []).getD j 0 = scenarioEnv.livePop v j) ∧
      rbCtrl2.projPop = rbCtrl2.projPop ∧ rbCtrl2.p = rbCtrl2.p ∧
      rbCtrl2.pp = rbCtrl2.pp ∧ rbCtrl2.q = rbCtrl2.q ∧
      rbCtrl2.w = rbCtrl2.w ∧ rbCtrl2.preCalc = rbCtrl2.preCalc ∧
      rbCtrl2.substantially = rbCtrl2.substantially) ∧
    ((∀ j < sbEnv0.numSp,
        sbCtrl2.oldPop.getD j 0 = sbEnv0.livePop j ∧
          sbCtrl2.old_g.getD j 0 = sbEnv0.get_g j) ∧
      sbCtrl2.projPop = sbCtrl2.projPop ∧ sbCtrl2.p = sbCtrl2.p ∧
      sbCtrl2.pp = sbCtrl2.pp ∧ sbCtrl2.q = sbCtrl2.q ∧
      sbCtrl2.w = sbCtrl2.w ∧ sbCtrl2.preCalc = sbCtrl2.preCalc ∧
      sbCtrl2.substantially = sbCtrl2.substantially) :=
  ⟨update_commits_baseline.1 scenarioEnv rbCtrl2 rbCtrl2 (by rfl),
   update_commits_baseline.2 sbEnv0 sbCtrl2 sbCtrl2 (by rfl)⟩

/-- Claim C8: in both variants the registry catch-up loop is idempotent —
when the registry already matches the live network count it returns the
state unchanged, and running it again right after a successful run is a
no-op. -/
theorem registry_catchup_idempotent :
    (∀ (env : RbEnv) (s : RbCtrl), s.oldPop.length = env.numRxn →
      catchUpRb env s = Except.ok s) ∧
    (∀ (env : RbEnv) (s s' : RbCtrl), catchUpRb env s = Except.ok s' →
      catchUpRb env s' = Except.ok s') ∧
    (∀ (env : SbEnv) (s : SbCtrl), s.oldPop.length = env.numSp →
      catchUpSb env s = Except.ok s) ∧
    (∀ (env : SbEnv) (s s' : SbCtrl), catchUpSb env s = Except.ok s' →
      catchUpSb env s' = Except.ok s') := by
  refine ⟨?_, ?_, ?_, ?_⟩
  · intro env s h
    exact catchUpRb_of_stop env s (Or.inl h)
  · intro env s s' h
    exact catchUpRb_of_stop env s'
      (catchUpRb_ok_inv env (env.numRxn - s.oldPop.length) s s' rfl h).1
  · intro env s h
    exact catchUpSb_of_stop env s (Or.inl h)
  · intro env s s' h
    exact catchUpSb_of_stop env s'
      (catchUpSb_ok_inv env (env.numSp - s.oldPop.length) s s' rfl h).1

/-- Claim C8 witness: the synchronised scenario registries are left
unchanged by catch-up, twice in a row. -/
theorem registry_catchup_idempotent_witness :
    catchUpRb scenarioEnv rbCtrl0 = Except.ok rbCtrl0 ∧
    catchUpSb sbEnv0 sbCtrl0 = Except.ok sbCtrl0 :=
  ⟨registry_catchup_idempotent.2.1 scenarioEnv rbCtrl0 rbCtrl0
     (registry_catchup_idempotent.1 scenarioEnv rbCtrl0 (by simp [rbCtrl0, scenarioEnv])),
   registry_catchup_idempotent.2.2.2 sbEnv0 sbCtrl0 sbCtrl0
     (registry_catchup_idempotent.2.2.1 sbEnv0 sbCtrl0 (by simp [sbCtrl0, sbEnv0]))⟩

/-- In the section-8.6 scenario the projected mean change at trial tau is
`tau * 10`. -/
theorem scenario_mean (tau : ℝ) : mean_dX scenarioEnv.aCalc tau 0 = tau * 10 := by
  simp [mean_dX, scenarioEnv]

/-- In the scenario the square-root argument of the deviation is
`tau * 10`. -/
theorem scenario_var (tau : ℝ) : sdevVar scenarioEnv.aCalc tau 0 = tau * 10 := by
  simp [sdevVar, scenarioEnv]

/-- In the scenario, for nonnegative trial tau, the signed deviation is
`sqrt(tau * 10)` — the square root of tau times the variance rate, not tau
times the square root. -/
theorem scenario_sdev (tau : ℝ) (h : 0 ≤ tau) :
    sdev_dX scenarioEnv.aCalc tau 0 = Real.sqrt (tau * 10) := by
  rw [sdev_dX, scenario_var, if_neg]
  rw [scenario_mean, not_lt]
  nlinarith

/-- In the scenario the projected population at trial tau is
`100 + 10 tau + sqrt(10 tau)`. -/
theorem scenario_proj (tau : ℝ) (h : 0 ≤ tau) :
    projPopEntryRb scenarioEnv scenarioOldPop tau 0 0
      = 100 + tau * 10 + Real.sqrt (tau * 10) := by
  have hr : scenarioEnv.rateSp 0 0 = 0 := rfl
  unfold projPopEntryRb
  rw [hr, scenario_mean, scenario_sdev tau h]
  simp [scenarioOldPop]

/-- Claim C1 counterexample: in the section-8.6 scenario at tau = 0.5 the
code's deviation is `sqrt 5 ≈ 2.236`, not the claimed
`tau * sqrt(Σ z² a) = 0.5 * sqrt 10 ≈ 1.581`, and the projected population
after the single shrink exceeds 107, so it is not ≈ 106.58. -/
theorem projection_formula_counterexample :
    sdev_dX scenarioEnv.aCalc (1/2) 0 ≠ (1/2) * Real.sqrt 10 ∧
    107 < projPopEntryRb scenarioEnv scenarioOldPop (1/2) 0 0 := by
  have h5 : sdev_dX scenarioEnv.aCalc (1/2) 0 = Real.sqrt 5 := by
    rw [scenario_sdev (1/2) (by norm_num)]
    norm_num
  have hlow : (2.2:ℝ) < Real.sqrt 5 := by
    rw [Real.lt_sqrt (by norm_num)]
    norm_num
  have hup : Real.sqrt 10 < 3.2 := by
    rw [Real.sqrt_lt' (by norm_num)]
    norm_num
  constructor
  · rw [h5]
    intro he
    nlinarith
  · rw [scenario_proj (1/2) (by norm_num)]
    have : ((1:ℝ)/2) * 10 = 5 := by norm_num
    rw [this]
    nlinarith

/-- Claim C1 (amended): the pre-leap projection computes
`mean[j] = tau * Σ z a` and `sdev[j] = sqrt(tau * Σ z² a)` (sign forced to
match the mean) and projects `baseline + mean + sdev`; in the section-8.6
scenario the tau = 1 trial is rejected (projection `110 + sqrt 10` exceeds
the bound 110), one shrink by `p = 0.5` gives tau = 0.5, whose projection
`105 + sqrt 5 ≈ 107.24` passes the recomputed bound. -/
theorem projection_scenario_amended :
    ¬ rbCheck scenarioEnv (1/10) 1 scenarioOldPop 1 ∧
    rbCheck scenarioEnv (1/10) 1 scenarioOldPop (1 * (1/2) ^ 1) ∧
    projPopEntryRb scenarioEnv scenarioOldPop 1 0 0 = 110 + Real.sqrt 10 ∧
    projPopEntryRb scenarioEnv scenarioOldPop (1/2) 0 0 = 105 + Real.sqrt 5 ∧
    (107.2:ℝ) < 105 + Real.sqrt 5 ∧ (105:ℝ) + Real.sqrt 5 < 107.3 := by
  have hproj1 : projPopEntryRb scenarioEnv scenarioOldPop 1 0 0
      = 110 + Real.sqrt 10 := by
    rw [scenario_proj 1 (by norm_num)]
    norm_num
  have hprojh : projPopEntryRb scenarioEnv scenarioOldPop (1/2) 0 0
      = 105 + Real.sqrt 5 := by
    rw [scenario_proj (1/2) (by norm_num)]
    norm_num
  have hlow : (2.2:ℝ) < Real.sqrt 5 := by
    rw [Real.lt_sqrt (by norm_num)]
    norm_num
  have hup : Real.sqrt 5 < 2.3 := by
    rw [Real.sqrt_lt' (by norm_num)]
    norm_num
  refine ⟨?_, ?_, hproj1, hprojh, by nlinarith, by nlinarith⟩
  · intro hchk
    have h0 := hchk 0 (by norm_num [scenarioEnv]) 0 (by norm_num [scenarioEnv])
    rw [hproj1] at h0
    simp only [scenarioOldPop, List.getD_cons_zero] at h0
    have hpos : (0:ℝ) < Real.sqrt 10 := Real.sqrt_pos.2 (by norm_num)
    rw [abs_of_nonneg (by nlinarith)] at h0
    nlinarith
  · have harg : (1:ℝ) * (1/2) ^ 1 = 1/2 := by norm_num
    rw [harg]
    intro v hv j hj
    have hv1 : v < 1 := hv
    have hj1 : j < 1 := hj
    have hv0 : v = 0 := by omega
    have hj0 : j = 0 := by omega
    subst hv0
    subst hj0
    rw [hprojh]
    simp only [scenarioOldPop, List.getD_cons_zero]
    rw [abs_of_nonneg (by nlinarith)]
    nlinarith

/-- A finite family of positive reals has a positive lower bound. -/
theorem finRowMin (g : ℕ → ℝ) :
    ∀ n : ℕ, (∀ j < n, 0 < g j) → ∃ b, 0 < b ∧ ∀ j < n, b ≤ g j := by
  intro n
  induction n with
  | zero => exact fun _ => ⟨1, one_pos, fun j hj => absurd hj (Nat.not_lt_zero j)⟩
  | succ n ih =>
    intro h
    obtain ⟨b, hb, hble⟩ := ih fun j hj => h j (Nat.lt_succ_of_lt hj)
    refine ⟨min b (g n), lt_min hb (h n (Nat.lt_succ_self n)), ?_⟩
    intro j hj
    rcases Nat.lt_succ_iff_lt_or_eq.mp hj with hj | hj
    · exact le_trans (min_le_left _ _) (hble j hj)
    · subst hj
      exact min_le_right _ _

/-- A finite doubly-indexed family of positive reals has a positive lower
bound. -/
theorem finGridMin (f : ℕ → ℕ → ℝ) (cnt : ℕ → ℕ) :
    ∀ nR : ℕ, (∀ v < nR, ∀ j < cnt v, 0 < f v j) →
      ∃ B, 0 < B ∧ ∀ v < nR, ∀ j < cnt v, B ≤ f v j := by
  intro nR
  induction nR with
  | zero => exact fun _ => ⟨1, one_pos, fun v hv => absurd hv (Nat.not_lt_zero v)⟩
  | succ nR ih =>
    intro h
    obtain ⟨B, hB, hBle⟩ := ih fun v hv => h v (Nat.lt_succ_of_lt hv)
    obtain ⟨b, hb, hble⟩ := finRowMin (f nR) (cnt nR) (h nR (Nat.lt_succ_self nR))
    refine ⟨min B b, lt_min hB hb, ?_⟩
    intro v hv j hj
    rcases Nat.lt_succ_iff_lt_or_eq.mp hv with hv | hv
    · exact le_trans (min_le_left _ _) (hBle v hv j hj)
    · subst hv
      exact le_trans (min_le_right _ _) (hble j hj)

/-- A finite family of reals has a nonnegative upper bound. -/
theorem finRowMax (g : ℕ → ℝ) :
    ∀ n : ℕ, ∃ c, 0 ≤ c ∧ ∀ j < n, g j ≤ c := by
  intro n
  induction n with
  | zero => exact ⟨0, le_refl 0, fun j hj => absurd hj (Nat.not_lt_zero j)⟩
  | succ n ih =>
    obtain ⟨c, hc, hcle⟩ := ih
    refine ⟨max c (g n), le_trans hc (le_max_left _ _), ?_⟩
    intro j hj
    rcases Nat.lt_succ_iff_lt_or_eq.mp hj with hj | hj
    · exact le_trans (hcle j hj) (le_max_left _ _)
    · subst hj
      exact le_max_right _ _

/-- A finite doubly-indexed family of reals has a nonnegative upper
bound. -/
theorem finGridMax (f : ℕ → ℕ → ℝ) (cnt : ℕ → ℕ) :
    ∀ nR : ℕ, ∃ C, 0 ≤ C ∧ ∀ v < nR, ∀ j < cnt v, f v j ≤ C := by
  intro nR
  induction nR with
  | zero => exact ⟨0, le_refl 0, fun v hv => absurd hv (Nat.not_lt_zero v)⟩
  | succ nR ih =>
    obtain ⟨C, hC, hCle⟩ := ih
    obtain ⟨c, hc, hcle⟩ := finRowMax (f nR) (cnt nR)
    refine ⟨max C c, le_trans hC (le_max_left _ _), ?_⟩
    intro v hv j hj
    rcases Nat.lt_succ_iff_lt_or_eq.mp hv with hv | hv
    · exact le_trans (hCle v hv j hj) (le_max_left _ _)
    · subst hv
      exact le_trans (hcle j hj) (le_max_right _ _)

/-- For any coefficient bound `C ≥ 0` and threshold `B > 0` there is a
positive step size below which `t·C + sqrt(t·C)` stays within `B`. -/
theorem small_tau_bound (C B : ℝ) (hC : 0 ≤ C) (hB : 0 < B) :
    ∃ d, 0 < d ∧ ∀ t : ℝ, 0 < t → t ≤ d →
      t * C + Real.sqrt (t * C) ≤ B := by
  refine ⟨min (B / (2 * (C + 1))) ((B / 2) ^ 2 / (C + 1)),
    lt_min (by positivity) (by positivity), ?_⟩
  intro t ht htd
  have h1 : t * C ≤ B / 2 := by
    have ht1 : t ≤ B / (2 * (C + 1)) := le_trans htd (min_le_left _ _)
    have h2 : t * C ≤ B / (2 * (C + 1)) * C :=
      mul_le_mul_of_nonneg_right ht1 hC
    have h3 : B / (2 * (C + 1)) * C ≤ B / 2 := by
      rw [div_mul_eq_mul_div, div_le_div_iff₀ (by positivity) (by norm_num)]
      nlinarith
    linarith
  have h2 : Real.sqrt (t * C) ≤ B / 2 := by
    have ht2 : t ≤ (B / 2) ^ 2 / (C + 1) := le_trans htd (min_le_right _ _)
    have htc : t * C ≤ (B / 2) ^ 2 := by
      have h4 : t * C ≤ (B / 2) ^ 2 / (C + 1) * C :=
        mul_le_mul_of_nonneg_right ht2 hC
      have h5 : (B / 2) ^ 2 / (C + 1) * C ≤ (B / 2) ^ 2 := by
        rw [div_mul_eq_mul_div, div_le_iff₀ (by positivity)]
        nlinarith [sq_nonneg (B / 2)]
      linarith
    calc Real.sqrt (t * C) ≤ Real.sqrt ((B / 2) ^ 2) := Real.sqrt_le_sqrt htc
      _ = B / 2 := Real.sqrt_sq (by positivity)
  linarith

/-- The mean projected change is bounded by tau times the propensity bound
times the total absolute stoichiometry of the species. -/
theorem mean_abs_le (ac : ACalc) (tau M : ℝ) (j : ℕ) (htau : 0 ≤ tau)
    (ha : ∀ r, 0 ≤ ac.aEff tau r ∧ ac.aEff tau r ≤ M) :
    |mean_dX ac tau j|
      ≤ tau * ((∑ v ∈ range (ac.spInRxnLen j), |ac.stoich j v|) * M) := by
  rw [mean_dX, abs_mul, abs_of_nonneg htau]
  refine mul_le_mul_of_nonneg_left ?_ htau
  calc |∑ v ∈ range (ac.spInRxnLen j), ac.stoich j v * ac.aEff tau (ac.spInRxn j v)|
      ≤ ∑ v ∈ range (ac.spInRxnLen j), |ac.stoich j v * ac.aEff tau (ac.spInRxn j v)| :=
        Finset.abs_sum_le_sum_abs _ _
    _ ≤ ∑ v ∈ range (ac.spInRxnLen j), |ac.stoich j v| * M := by
        refine Finset.sum_le_sum fun i _ => ?_
        rw [abs_mul, abs_of_nonneg (ha (ac.spInRxn j i)).1]
        exact mul_le_mul_of_nonneg_left (ha (ac.spInRxn j i)).2 (abs_nonneg _)
    _ = (∑ v ∈ range (ac.spInRxnLen j), |ac.stoich j v|) * M :=
        (Finset.sum_mul _ _ _).symm

/-- The square-root argument of the deviation is nonnegative and bounded
by tau times the propensity bound times the total squared stoichiometry. -/
theorem sdevVar_nonneg_le (ac : ACalc) (tau M : ℝ) (j : ℕ) (htau : 0 ≤ tau)
    (ha : ∀ r, 0 ≤ ac.aEff tau r ∧ ac.aEff tau r ≤ M) :
    0 ≤ sdevVar ac tau j ∧
    sdevVar ac tau j
      ≤ tau * ((∑ v ∈ range (ac.spInRxnLen j),
          ac.stoich j v * ac.stoich j v) * M) := by
  constructor
  · exact mul_nonneg htau (Finset.sum_nonneg fun i _ =>
      mul_nonneg (mul_self_nonneg _) (ha (ac.spInRxn j i)).1)
  · rw [sdevVar]
    refine mul_le_mul_of_nonneg_left ?_ htau
    calc ∑ v ∈ range (ac.spInRxnLen j),
          ac.stoich j v * ac.stoich j v * ac.aEff tau (ac.spInRxn j v)
        ≤ ∑ v ∈ range (ac.spInRxnLen j), ac.stoich j v * ac.stoich j v * M := by
          refine Finset.sum_le_sum fun i _ => ?_
          exact mul_le_mul_of_nonneg_left (ha (ac.spInRxn j i)).2
            (mul_self_nonneg _)
      _ = (∑ v ∈ range (ac.spInRxnLen j), ac.stoich j v * ac.stoich j v) * M :=
          (Finset.sum_mul _ _ _).symm

/-- The magnitude of the signed deviation is the square root of its
variance argument, whichever sign branch was taken. -/
theorem abs_sdev_dX (ac : ACalc) (tau : ℝ) (j : ℕ) :
    |sdev_dX ac tau j| = Real.sqrt (sdevVar ac tau j) := by
  rw [sdev_dX]
  split_ifs
  · rw [abs_neg, abs_of_nonneg (Real.sqrt_nonneg _)]
  · rw [abs_of_nonneg (Real.sqrt_nonneg _)]

/-- Claim C9: the uncapped pre-leap retry loop terminates.  With shrink
factor `0 < p < 1`, any positive initial tau, any positive `eps`, bounded
nonnegative effective propensities and positive baselines, some iterate
`tau0 * p^k` already passes the (spec-modelled) reaction-bound check at
`threshold_scale = 1.0`, so the shrink loop stops after finitely many
rejections, and a rejected trial only shrinks tau — it is never an
error. -/
theorem shrink_loop_terminates (env : RbEnv) (oldPop : List (List ℝ))
    (eps p tau0 M : ℝ) (hp0 : 0 < p) (hp1 : p < 1) (htau : 0 < tau0)
    (heps : 0 < eps)
    (ha : ∀ tau r, 0 ≤ env.aCalc.aEff tau r ∧ env.aCalc.aEff tau r ≤ M)
    (hbl : ∀ v < env.numRxn, ∀ j < env.rateSpCount v,
      0 < (oldPop.getD v []).getD j 0) :
    ∃ k, rbCheck env eps 1 oldPop (tau0 * p ^ k) := by
  obtain ⟨B, hB, hBle⟩ := finGridMin
    (fun v j => eps * (oldPop.getD v []).getD j 0) env.rateSpCount env.numRxn
    (fun v hv j hj => mul_pos heps (hbl v hv j hj))
  obtain ⟨C, hC, hCle⟩ := finGridMax
    (fun v j =>
      max ((∑ u ∈ range (env.aCalc.spInRxnLen (env.rateSp v j)),
              |env.aCalc.stoich (env.rateSp v j) u|) * M)
          ((∑ u ∈ range (env.aCalc.spInRxnLen (env.rateSp v j)),
              env.aCalc.stoich (env.rateSp v j) u
                * env.aCalc.stoich (env.rateSp v j) u) * M))
    env.rateSpCount env.numRxn
  obtain ⟨d, hd, hdle⟩ := small_tau_bound C B hC hB
  obtain ⟨k, hk⟩ := exists_pow_lt_of_lt_one (div_pos hd htau) hp1
  refine ⟨k, ?_⟩
  have ht0 : 0 < tau0 * p ^ k := mul_pos htau (pow_pos hp0 k)
  have htd : tau0 * p ^ k ≤ d := by
    have h1 := mul_lt_mul_of_pos_left hk htau
    have h2 : tau0 * (d / tau0) = d := by
      field_simp
    rw [h2] at h1
    exact le_of_lt h1
  intro v hv j hj
  have hdiff : projPopEntryRb env oldPop (tau0 * p ^ k) v j
      - (oldPop.getD v []).getD j 0
      = mean_dX env.aCalc (tau0 * p ^ k) (env.rateSp v j)
        + sdev_dX env.aCalc (tau0 * p ^ k) (env.rateSp v j) := by
    rw [projPopEntryRb]
    ring
  rw [hdiff]
  have hm := mean_abs_le env.aCalc (tau0 * p ^ k) M (env.rateSp v j) ht0.le
    (ha (tau0 * p ^ k))
  have hvv := sdevVar_nonneg_le env.aCalc (tau0 * p ^ k) M (env.rateSp v j)
    ht0.le (ha (tau0 * p ^ k))
  have hm' : |mean_dX env.aCalc (tau0 * p ^ k) (env.rateSp v j)|
      ≤ tau0 * p ^ k * C :=
    le_trans hm (mul_le_mul_of_nonneg_left
      (le_trans (le_max_left _ _) (hCle v hv j hj)) ht0.le)
  have hs' : |sdev_dX env.aCalc (tau0 * p ^ k) (env.rateSp v j)|
      ≤ Real.sqrt (tau0 * p ^ k * C) := by
    rw [abs_sdev_dX]
    refine Real.sqrt_le_sqrt ?_
    exact le_trans hvv.2 (mul_le_mul_of_nonneg_left
      (le_trans (le_max_right _ _) (hCle v hv j hj)) ht0.le)
  calc |mean_dX env.aCalc (tau0 * p ^ k) (env.rateSp v j)
        + sdev_dX env.aCalc (tau0 * p ^ k) (env.rateSp v j)|
      ≤ |mean_dX env.aCalc (tau0 * p ^ k) (env.rateSp v j)|
        + |sdev_dX env.aCalc (tau0 * p ^ k) (env.rateSp v j)| := abs_add _ _
    _ ≤ tau0 * p ^ k * C + Real.sqrt (tau0 * p ^ k * C) :=
        add_le_add hm' hs'
    _ ≤ B := hdle (tau0 * p ^ k) ht0 htd
    _ ≤ eps * (oldPop.getD v []).getD j 0 := hBle v hv j hj
    _ = 1 * eps * (oldPop.getD v []).getD j 0 := by ring

/-- Claim C9 witness: in the section-8.6 scenario (p = 0.5, initial tau 1,
eps = 0.1, propensity bound 10, baseline 100) the shrink loop terminates. -/
theorem shrink_loop_terminates_witness :
    (0:ℝ) < 1/2 ∧ (1:ℝ)/2 < 1 ∧ (0:ℝ) < 1 ∧ (0:ℝ) < 1/10 ∧
    ∃ k, rbCheck scenarioEnv (1/10) 1 scenarioOldPop (1 * (1/2) ^ k) :=
  ⟨by norm_num, by norm_num, one_pos, by norm_num,
   shrink_loop_terminates scenarioEnv scenarioOldPop (1/10) (1/2) 1 10
     (by norm_num) (by norm_num) one_pos (by norm_num)
     (fun tau r => by norm_num [scenarioEnv])
     (fun v hv j hj => by
       have hv1 : v < 1 := hv
       have hj1 : j < 1 := hj
       have hv0 : v = 0 := by omega
       have hj0 : j = 0 := by omega
       subst hv0
       subst hj0
       norm_num [scenarioOldPop])⟩
